import Mathlib

/-!
# DegenBot-CE: verification of the request-lifecycle engine

A shallow embedding of the DegenBot-CE sources (a Telegram overlay bot) and
proofs about it.  The embedding follows the Rust sources file by file:

* `src/utils/rate_limiter.rs`  → `RateLimiter`, `check_rate_limit`
* `src/utils/cleanup.rs`       → `cleanup_expired_overlays`
* `src/utils/image_utils.rs`   → `overlay_image`
* `src/commands/overlay/handler.rs`   → `handle`
* `src/commands/overlay/processor.rs` → `process_image`
* `src/main.rs`                → `message_handler`

Conventions of the embedding:

* `tokio::time::Instant` is modelled as `Nat` (seconds); `duration_since` /
  `elapsed` saturate at zero exactly like the Rust API, which Nat subtraction
  mirrors.
* The shared `HashMap`s behind mutexes are modelled as association lists; all
  code runs sequentially here, which is faithful because every Rust critical
  section is a leaf-level mutex.
* Transport (Telegram) and disk I/O are modelled by a `Transport` record of
  deterministic oracles returning `Except Unit _`; every call the code makes
  is recorded, in program order, in a trace of `Effect`s (an effect records
  the *attempt*, whether or not the oracle reports success).
* `f32` arithmetic in the image code is modelled by exact rational
  arithmetic; the concrete inputs used in counterexamples below are exactly
  representable in `f32`, so the modelled values coincide with the Rust ones
  there.
-/

namespace DegenBot

/-- Opaque 64-bit signed conversation id (`teloxide::types::ChatId`). -/
abbrev ChatId := Int

/-- Opaque 64-bit unsigned sender id (`teloxide::types::UserId`). -/
abbrev UserId := Nat

/-- Opaque message id (`teloxide::types::MessageId`). -/
abbrev MessageId := Nat

/-- Monotonic time point (`tokio::time::Instant`), in seconds. -/
abbrev Instant := Nat

/-- The pair scoping a pending interactive request: `(ChatId, UserId)`. -/
abbrev SessionKey := ChatId × UserId

/-- `OVERLAY_EXPIRATION` from `src/utils/cleanup.rs` (180 s). -/
def OVERLAY_EXPIRATION : Nat := 180

/-- The pending-request table
`HashMap<(ChatId, UserId), (MessageId, Instant)>` from
`src/commands/mod.rs`, modelled as an association list. -/
abbrev PendingOverlays := List (SessionKey × (MessageId × Instant))

/-- `HashMap::get` on the pending table. -/
def getEntry (t : PendingOverlays) (k : SessionKey) : Option (MessageId × Instant) :=
  (t.find? (fun e => decide (e.1 = k))).map (·.2)

/-- `HashMap::remove` on the pending table. -/
def removeEntry (t : PendingOverlays) (k : SessionKey) : PendingOverlays :=
  t.filter (fun e => decide (e.1 ≠ k))

/-- `HashMap::insert` preceded by the `remove` the handler issues
(`handler.rs` lines 101–103). -/
def insertEntry (t : PendingOverlays) (k : SessionKey) (v : MessageId × Instant) :
    PendingOverlays :=
  (k, v) :: removeEntry t k

/-- The keys of the table are pairwise distinct — the `HashMap` invariant. -/
def nodupKeys (t : PendingOverlays) : Prop := (t.map (·.1)).Nodup

theorem getEntry_cons (e : SessionKey × (MessageId × Instant)) (es : PendingOverlays)
    (k : SessionKey) :
    getEntry (e :: es) k = if e.1 = k then some e.2 else getEntry es k := by
  by_cases h : e.1 = k <;> simp [getEntry, List.find?, h]

theorem removeEntry_cons (e : SessionKey × (MessageId × Instant)) (es : PendingOverlays)
    (k : SessionKey) :
    removeEntry (e :: es) k = if e.1 = k then removeEntry es k else e :: removeEntry es k := by
  by_cases h : e.1 = k <;> simp [removeEntry, List.filter_cons, h]

theorem getEntry_removeEntry_self (t : PendingOverlays) (k : SessionKey) :
    getEntry (removeEntry t k) k = none := by
  induction t with
  | nil => rfl
  | cons e es ih =>
    rw [removeEntry_cons]
    by_cases he : e.1 = k
    · rw [if_pos he]; exact ih
    · rw [if_neg he, getEntry_cons, if_neg he]; exact ih

theorem getEntry_removeEntry_ne (t : PendingOverlays) (k k' : SessionKey)
    (h : k' ≠ k) : getEntry (removeEntry t k) k' = getEntry t k' := by
  induction t with
  | nil => rfl
  | cons e es ih =>
    rw [removeEntry_cons]
    by_cases he : e.1 = k
    · have he' : e.1 ≠ k' := fun hc => h (hc.symm.trans he)
      rw [if_pos he, ih, getEntry_cons, if_neg he']
    · rw [if_neg he, getEntry_cons, getEntry_cons]
      by_cases he' : e.1 = k'
      · rw [if_pos he', if_pos he']
      · rw [if_neg he', if_neg he', ih]

theorem nodupKeys_cons {x : SessionKey × (MessageId × Instant)} {xs : PendingOverlays}
    (h : nodupKeys (x :: xs)) : x.1 ∉ xs.map (·.1) ∧ nodupKeys xs := by
  have h2 : nodupKeys (x :: xs) = (x.1 :: xs.map (·.1)).Nodup := by
    unfold nodupKeys
    rw [List.map_cons]
  exact List.nodup_cons.mp (h2 ▸ h)

theorem getEntry_of_mem_nodup {t : PendingOverlays} {e : SessionKey × (MessageId × Instant)}
    (hn : nodupKeys t) (hm : e ∈ t) : getEntry t e.1 = some e.2 := by
  induction t with
  | nil => simp at hm
  | cons x xs ih =>
    rcases List.mem_cons.mp hm with h | h
    · subst h
      rw [getEntry_cons, if_pos rfl]
    · obtain ⟨hx, hn'⟩ := nodupKeys_cons hn
      have hxne : x.1 ≠ e.1 := fun hc => hx (hc ▸ List.mem_map_of_mem (·.1) h)
      rw [getEntry_cons, if_neg hxne]
      exact ih hn' h

theorem eq_of_mem_nodupKeys {t : PendingOverlays}
    {e e' : SessionKey × (MessageId × Instant)} (hn : nodupKeys t)
    (hm : e ∈ t) (hm' : e' ∈ t) (hk : e.1 = e'.1) : e = e' := by
  have h1 := getEntry_of_mem_nodup hn hm
  have h2 := getEntry_of_mem_nodup hn hm'
  rw [hk] at h1
  have : e.2 = e'.2 := by
    have := h1.symm.trans h2
    exact Option.some.inj this
  exact Prod.ext hk this

/-- The per-key rate-limiter state from `src/utils/rate_limiter.rs`:
`limits: HashMap<String, (Instant, u32)>` plus the two parameters. -/
structure RateLimiter where
  limits : List (String × (Instant × Nat))
  max_requests : Nat
  time_window : Nat

/-- `RateLimiter::new`. -/
def RateLimiter.new (max_requests : Nat) (time_window : Nat) : RateLimiter :=
  { limits := [], max_requests := max_requests, time_window := time_window }

/-- Replace the value stored under `key` (the in-place `get_mut` update). -/
def setLimit (l : List (String × (Instant × Nat))) (key : String) (v : Instant × Nat) :
    List (String × (Instant × Nat)) :=
  (key, v) :: l.filter (fun e => decide (e.1 ≠ key))

/-- `RateLimiter::check_rate_limit` (`rate_limiter.rs` lines 56–74),
returning the admit flag together with the updated state. -/
def check_rate_limit (rl : RateLimiter) (key : String) (now : Instant) :
    Bool × RateLimiter :=
  match rl.limits.find? (fun e => decide (e.1 = key)) with
  | some (_, (last_reset, count)) =>
    if now - last_reset > rl.time_window then
      (true, { rl with limits := setLimit rl.limits key (now, 1) })
    else if count ≥ rl.max_requests then
      (false, rl)
    else
      (true, { rl with limits := setLimit rl.limits key (last_reset, count + 1) })
  | none => (true, { rl with limits := (key, (now, 1)) :: rl.limits })

/-- Rust's `str::starts_with`, kernel-computable over the character data. -/
def strStartsWith (s p : String) : Bool := p.data.isPrefixOf s.data

/-- The `format!("{}:{}", chat_id, user_id)` key both call sites build. -/
def rateKey (c : ChatId) (u : UserId) : String :=
  toString c ++ ":" ++ toString u

/-! ## Image compositor (`src/utils/image_utils.rs`)

An `opencv::Mat` of 8-bit pixels is modelled as its dimensions, channel count
and a total pixel function (values are intended in `0..=255`; channel indices
beyond `channels` are simply never consulted by the code).  `f32` arithmetic
is modelled by exact rationals, and `as i32` / `as u8` casts of non-negative
values by `Int.toNat ∘ Rat.floor` (truncation toward zero). -/

/-- An 8-bit raster (`opencv::Mat`): row count, column count, channel count
and the pixel plane, addressed as `pix row col channel`. -/
@[ext] structure Img where
  rows : Nat
  cols : Nat
  channels : Nat
  pix : Nat → Nat → Fin 4 → Nat

/-- The three error shapes `overlay_image` can produce: the explicit
`StsUnsupportedFormat` for a base with neither 3 nor 4 channels; the
`cv::resize` assertion failure on an empty source or destination size; the
`at_2d::<Vec4b>` type-check failure when the overlay is not 4-channel. -/
inductive CvError where
  | unsupportedFormat
  | badSize
  | badType
  deriving DecidableEq

/-- Clamp an integer sample coordinate into `[0, n-1]` (border replicate). -/
def clampIdx (i : Int) (n : Nat) : Nat :=
  Int.toNat (min i ((n : Int) - 1))

/-- One bilinear sample of `cv::resize(..., INTER_LINEAR)` mapping the
destination pixel `(x, y)` of a `dstW × dstH` target back into `src`,
with exact rational arithmetic in place of OpenCV's fixed-point `f32`. -/
def bilinearSample (src : Img) (dstW dstH : Nat) (x y : Nat) (c : Fin 4) : Nat :=
  let sx : ℚ := ((x : ℚ) + 1/2) * src.cols / dstW - 1/2
  let sy : ℚ := ((y : ℚ) + 1/2) * src.rows / dstH - 1/2
  let x0 : Int := ⌊sx⌋
  let y0 : Int := ⌊sy⌋
  let fx : ℚ := sx - x0
  let fy : ℚ := sy - y0
  let p : Int → Int → ℚ := fun yy xx => src.pix (clampIdx yy src.rows) (clampIdx xx src.cols) c
  let v : ℚ := (1 - fy) * ((1 - fx) * p y0 x0 + fx * p y0 (x0 + 1))
             + fy * ((1 - fx) * p (y0 + 1) x0 + fx * p (y0 + 1) (x0 + 1))
  Int.toNat ⌊v + 1/2⌋

/-- `imgproc::resize(overlay, ..., Size::new(w, h), 0.0, 0.0, INTER_LINEAR)`
(`image_utils.rs` line 43), restricted to non-empty sizes (the empty case is
raised as `CvError.badSize` by `overlay_image` itself). -/
def resizeLinear (src : Img) (w h : Nat) : Img :=
  { rows := h
    cols := w
    channels := src.channels
    pix := fun y x c => bilinearSample src w h x y c }

/-- `imgproc::cvt_color(base, ..., COLOR_BGR2BGRA, 0)`: keep the three colour
planes and append a fully-opaque alpha plane. -/
def promoteBGRA (base : Img) : Img :=
  { base with
    channels := 4
    pix := fun y x c => if c = 3 then 255 else base.pix y x c }

/-- `overlay_aspect = overlay.cols() as f32 / overlay.rows() as f32`
(`image_utils.rs` line 29). -/
def overlayAspect (ov : Img) : ℚ := (ov.cols : ℚ) / (ov.rows : ℚ)

/-- `new_height = (new_width as f32 / overlay_aspect) as i32`
(`image_utils.rs` lines 32–33): the resize target height, truncated toward
zero — the source truncates, it does not round. -/
def resizedHeight (base ov : Img) : Nat :=
  Int.toNat ⌊(base.cols : ℚ) / overlayAspect ov⌋

/-- `y_offset` (`image_utils.rs` lines 36–40): `0` when the resized overlay
is taller than the base, else `base_height - new_height`. -/
def yOffset (base ov : Img) : Nat :=
  if resizedHeight base ov > base.rows then 0 else base.rows - resizedHeight base ov

/-- The body of the blending double loop (`image_utils.rs` lines 51–63) as a
per-pixel function: inside the pasted band and where the overlay alpha is
positive, alpha-blend the colour channels and force alpha to 255; everywhere
else keep the (already BGRA) base pixel. -/
def blendPixel (bgra rz : Img) (yOff hUse : Nat) (y x : Nat) (c : Fin 4) : Nat :=
  if yOff ≤ y ∧ y < yOff + hUse ∧ x < rz.cols ∧ 0 < rz.pix (y - yOff) x 3 then
    if c = 3 then 255
    else
      let a : ℚ := (rz.pix (y - yOff) x 3 : ℚ) / 255
      Int.toNat ⌊(1 - a) * (bgra.pix y x c : ℚ) + a * (rz.pix (y - yOff) x c : ℚ)⌋
  else bgra.pix y x c

/-- `overlay_image` (`image_utils.rs` lines 15–66).  The `_previous_result`
parameter is accepted and, exactly as in the source, never read.  Error
cases: a base with neither 3 nor 4 channels is `unsupportedFormat` (line 26);
`cv::resize` rejects an empty source or destination size (`badSize`); the
typed `at_2d::<Vec4b>` access into a non-4-channel resized overlay fails on
the first loop iteration (`badType`, only reachable when the loop runs). -/
def overlay_image (base ov : Img) (_previous_result : Option Img) : Except CvError Img :=
  if base.channels = 3 ∨ base.channels = 4 then
    let bgra := if base.channels = 3 then promoteBGRA base else base
    let newW := base.cols
    let newH := resizedHeight base ov
    if ov.rows = 0 ∨ ov.cols = 0 ∨ newW = 0 ∨ newH = 0 then
      Except.error CvError.badSize
    else
      let rz := resizeLinear ov newW newH
      let hUse := min newH base.rows
      if ov.channels ≠ 4 ∧ 0 < hUse then
        Except.error CvError.badType
      else
        Except.ok { rows := base.rows
                    cols := base.cols
                    channels := 4
                    pix := fun y x c => blendPixel bgra rz (yOffset base ov) hUse y x c }
  else
    Except.error CvError.unsupportedFormat

/-! ## Transport, messages and effect traces -/

/-- The slice of `teloxide`'s `ChatMember` the code reads:
`chat_member.user.username`. -/
structure ChatMemberInfo where
  username : Option String

/-- An inbound Telegram `Message`, reduced to the fields the code reads:
chat, sender id and username, text, the photo variants' file ids (the code
picks the last, largest, one), and the id of the message it replies to. -/
structure TgMessage where
  chatId : ChatId
  fromUser : Option UserId
  fromUsername : Option String
  text : Option String
  photo : Option (List String)
  replyTo : Option MessageId

/-- Deterministic oracles for every external call the code makes.  Each
returns `Except Unit _`; `Except.error ()` models the corresponding Rust
`Err`.  `httpGet`'s outer `Except` is the `reqwest::get` connection result,
the inner one the `response.bytes()` read result. -/
structure Transport where
  token : String
  sendText : ChatId → String → Except Unit MessageId
  sendPhoto : ChatId → List Nat → String → String → Except Unit MessageId
  deleteMessage : ChatId → MessageId → Except Unit Unit
  getChatMember : ChatId → UserId → Except Unit ChatMemberInfo
  getFile : String → Except Unit String
  httpGet : String → Except Unit (Except Unit (List Nat))
  imdecode : List Nat → Except Unit Img
  imreadOverlay : Bool → Except Unit Img
  imencodePng : Img → Except Unit (List Nat)

/-- One observable step: either the removal of a pending-table entry (a pure
state operation, recorded so that ordering against I/O can be stated), or an
attempted external call.  An effect records the attempt regardless of
whether the oracle reports success. -/
inductive Effect where
  | removeEntry (k : SessionKey)
  | sendText (c : ChatId) (s : String)
  | sendPhoto (c : ChatId) (caption : String)
  | deleteMessage (c : ChatId) (m : MessageId)
  | getChatMember (c : ChatId) (u : UserId)
  | getFile (fileId : String)
  | httpGet (url : String)
  | compose
  deriving DecidableEq

/-! ## User-visible text templates (verbatim from the sources) -/

/-- The welcome string from `src/commands/start.rs`. -/
def WELCOME_TEXT : String :=
  "Welcome to the Degen POV bot! Use /degenme to create an overlay in any channel, group, or DM I am in!"

/-- The rate-limit notice (sent both by `main.rs` line 141 and
`handler.rs` line 76). -/
def RATE_LIMIT_TEXT : String :=
  "You're sending commands too quickly. Please wait a moment before trying again."

/-- The prompt text of `handler.rs` lines 85–90, parameterised on the
already-formatted addressee. -/
def promptText (who : String) : String :=
  "Hey, " ++ who ++ "! Please reply within 3 minutes to this message with an image to see the Degen Point of View!"

/-- The expiry-on-photo text (`processor.rs` line 94). -/
def EXPIRED_TEXT : String :=
  "Your overlay request has expired. Please use the /degenme command again."

/-- The sweeper expiry message (`cleanup.rs` line 34). -/
def sweeperExpiryText (username : String) : String :=
  username ++ ", you degen, you forgot to send me a picture! Please run /degenme again to send an image."

/-- The progress message (`processor.rs` line 111). -/
def processingText (who : String) : String :=
  "Making " ++ who ++ " a degen... Please wait..."

/-- The success caption (`processor.rs` line 216). -/
def captionText (who : String) : String :=
  "Here you go " ++ who ++ ", you degen."

/-! ## Overlay session handler (`src/commands/overlay/handler.rs`) -/

/-- `"@{username}"` with fallback `"there"` (`handler.rs` lines 67–70). -/
def displayUsername (msg : TgMessage) : String :=
  (msg.fromUsername.map (fun u => "@" ++ u)).getD "there"

/-- The prompt the handler sends (`handler.rs` lines 83–91): prefixed with
"Previous request cancelled. " when the sender already has a pending entry. -/
def replyTextFor (tbl : PendingOverlays) (msg : TgMessage) : String :=
  match msg.fromUser with
  | some uid =>
    if (getEntry tbl (msg.chatId, uid)).isSome then
      "Previous request cancelled. " ++ promptText (displayUsername msg)
    else
      promptText (displayUsername msg)
  | none => promptText (displayUsername msg)

/-- `CommandHandler::handle` (`handler.rs` lines 54–116): re-check the rate
limit; on denial send the notice and stop; otherwise send the prompt and, on
success and with a known sender, replace that sender's pending entry with
`(sent.id, now)`.  A failed prompt send is only logged — the table is not
touched. -/
def handle (tbl : PendingOverlays) (rl : RateLimiter) (msg : TgMessage)
    (tr : Transport) (now : Instant) :
    PendingOverlays × RateLimiter × List Effect :=
  let key := rateKey msg.chatId (msg.fromUser.getD 0)
  let res := check_rate_limit rl key now
  if res.1 then
    let replyText := replyTextFor tbl msg
    match tr.sendText msg.chatId replyText with
    | Except.ok sentId =>
      match msg.fromUser with
      | some uid =>
        (insertEntry tbl (msg.chatId, uid) (sentId, now), res.2,
          [Effect.sendText msg.chatId replyText])
      | none => (tbl, res.2, [Effect.sendText msg.chatId replyText])
    | Except.error _ => (tbl, res.2, [Effect.sendText msg.chatId replyText])
  else
    (tbl, res.2, [Effect.sendText msg.chatId RATE_LIMIT_TEXT])

/-! ## Photo processor (`src/commands/overlay/processor.rs`) -/

/-- `MAX_RETRIES` (`processor.rs` line 16). -/
def MAX_RETRIES : Nat := 3

/-- The retry loop of `processor.rs` lines 182–202 with `fuel` retries left:
each attempt calls `overlay_image` (always with `previous_result = None`,
which the loop never changes); a `compose` effect is recorded per attempt. -/
def composeLoop (base ov : Img) : Nat → Option Img × List Effect
  | 0 =>
    match overlay_image base ov none with
    | Except.ok r => (some r, [Effect.compose])
    | Except.error _ => (none, [Effect.compose])
  | fuel + 1 =>
    match overlay_image base ov none with
    | Except.ok r => (some r, [Effect.compose])
    | Except.error _ =>
      let rest := composeLoop base ov fuel
      (rest.1, Effect.compose :: rest.2)

/-- The body run for a matching, unexpired photo reply after the entry has
been removed (`processor.rs` lines 103–232).  Returns the effect trace; the
pending table is no longer touched on this path.  Every `match` on an oracle
reproduces the source's error handling (delete the progress message, send the
branch's apology, stop), and a failing `?`-propagated send simply ends the
trace at the attempted call. -/
def processMatchedPhoto (tr : Transport) (msg : TgMessage) : List Effect :=
  match msg.photo.bind List.getLast? with
  | none => [Effect.sendText msg.chatId "Please reply with an image to degen."]
  | some fileId =>
    let who := (msg.fromUsername.map (fun u => "@" ++ u)).getD "Anonymous"
    let procText := processingText who
    match tr.sendText msg.chatId procText with
    | Except.error _ => [Effect.sendText msg.chatId procText]
    | Except.ok procId =>
      Effect.sendText msg.chatId procText ::
      Effect.getFile fileId ::
      match tr.getFile fileId with
      | Except.error _ =>
        [Effect.deleteMessage msg.chatId procId,
         Effect.sendText msg.chatId "Failed to process your image. Please try again."]
      | Except.ok path =>
        let url := "https://api.telegram.org/file/bot" ++ tr.token ++ "/" ++ path
        Effect.httpGet url ::
        match tr.httpGet url with
        | Except.error _ =>
          [Effect.deleteMessage msg.chatId procId,
           Effect.sendText msg.chatId "Failed to download your image. Please try again."]
        | Except.ok readRes =>
          match readRes with
          | Except.error _ =>
            [Effect.deleteMessage msg.chatId procId,
             Effect.sendText msg.chatId "Failed to read your image. Please try again."]
          | Except.ok bytes =>
            match tr.imdecode bytes with
            | Except.error _ =>
              [Effect.deleteMessage msg.chatId procId,
               Effect.sendText msg.chatId "Failed to decode your image. Please try again."]
            | Except.ok img =>
              let isPortrait : Bool := decide ((img.rows : ℚ) / (img.cols : ℚ) > 1 + 1/20)
              match tr.imreadOverlay isPortrait with
              | Except.error _ =>
                [Effect.deleteMessage msg.chatId procId,
                 Effect.sendText msg.chatId "Failed to process overlay. Please try again later."]
              | Except.ok ovImg =>
                let attempt := composeLoop img ovImg MAX_RETRIES
                attempt.2 ++
                match attempt.1 with
                | none =>
                  [Effect.deleteMessage msg.chatId procId,
                   Effect.sendText msg.chatId "Failed to process your image. Please try again later."]
                | some result =>
                  match tr.imencodePng result with
                  | Except.error _ =>
                    [Effect.deleteMessage msg.chatId procId,
                     Effect.sendText msg.chatId "Failed to process your image. Please try again."]
                  | Except.ok buffer =>
                    let caption := captionText who
                    Effect.sendPhoto msg.chatId caption ::
                    match tr.sendPhoto msg.chatId buffer "overlay.png" caption with
                    | Except.error _ => []
                    | Except.ok _ => [Effect.deleteMessage msg.chatId procId]

/-- `ImageProcessor::process_image` (`processor.rs` lines 79–245): the queue
consumer's handling of one inbound photo message.  With no sender or no
`reply_to`, or no pending entry for `(chat, sender)`, or a `reply_to` that is
not the stored prompt, nothing happens.  A matching expired reply removes the
entry and sends `EXPIRED_TEXT`; a matching live reply removes the entry
(before any I/O) and runs `processMatchedPhoto`. -/
def process_image (tbl : PendingOverlays) (msg : TgMessage) (tr : Transport)
    (now : Instant) : PendingOverlays × List Effect :=
  match msg.fromUser, msg.replyTo with
  | some uid, some replyId =>
    match getEntry tbl (msg.chatId, uid) with
    | some (origId, reqTime) =>
      if origId = replyId then
        if now - reqTime > OVERLAY_EXPIRATION then
          (removeEntry tbl (msg.chatId, uid),
           [Effect.removeEntry (msg.chatId, uid), Effect.sendText msg.chatId EXPIRED_TEXT])
        else
          (removeEntry tbl (msg.chatId, uid),
           Effect.removeEntry (msg.chatId, uid) :: processMatchedPhoto tr msg)
      else (tbl, [])
    | none => (tbl, [])
  | _, _ => (tbl, [])

/-! ## Expiry sweeper (`src/utils/cleanup.rs`) -/

/-- The `if let Ok(chat_member) = bot.get_chat_member(..)` block of
`cleanup.rs` lines 32–38: the reminder is sent only when the chat-member
lookup succeeds, with username fallback "Degen"; on lookup failure nothing
is sent (and nothing is logged). -/
def memberNotice (tr : Transport) (k : SessionKey) : List Effect :=
  match tr.getChatMember k.1 k.2 with
  | Except.ok member =>
    [Effect.getChatMember k.1 k.2,
     Effect.sendText k.1 (sweeperExpiryText (member.username.getD "Degen"))]
  | Except.error _ => [Effect.getChatMember k.1 k.2]

/-- The per-key body of the sweeper's `for` loop (`cleanup.rs` lines 29–43),
written as a recursion over the collected expired keys: re-`remove` the
entry, run the member-lookup/reminder block, then delete the stale prompt.
Send and delete failures are logged and ignored, so the recursion always
continues. -/
def sweepKeys (tr : Transport) : List SessionKey → PendingOverlays × List Effect →
    PendingOverlays × List Effect
  | [], acc => acc
  | k :: ks, acc =>
    match getEntry acc.1 k with
    | some (msgId, _) =>
      sweepKeys tr ks
        (removeEntry acc.1 k, acc.2 ++ memberNotice tr k ++ [Effect.deleteMessage k.1 msgId])
    | none => sweepKeys tr ks acc

/-- `cleanup_expired_overlays` (`cleanup.rs` lines 20–44): collect the keys
of entries strictly older than `OVERLAY_EXPIRATION`, then run the per-key
loop. -/
def cleanup_expired_overlays (tbl : PendingOverlays) (tr : Transport) (now : Instant) :
    PendingOverlays × List Effect :=
  let expired :=
    (tbl.filter (fun e => decide (now - e.2.2 > OVERLAY_EXPIRATION))).map (·.1)
  sweepKeys tr expired (tbl, [])

/-! ## Command dispatcher (`src/main.rs`) -/

/-- The outcome of `message_handler`: updated shared state, the outbound
effect trace, and the message enqueued for the photo queue, if any. -/
structure HandlerResult where
  tbl : PendingOverlays
  rl : RateLimiter
  effects : List Effect
  queued : Option TgMessage

/-- `message_handler` (`main.rs` lines 123–149), the dispatcher actually
wired into the teloxide `Dispatcher`: a text starting with the plain string
"/start" runs the start command; otherwise a text starting with "/degenme"
checks the rate limiter and on admission calls `handle` (which checks the
same limiter again); a photo message is enqueued; anything else is ignored. -/
def message_handler (tbl : PendingOverlays) (rl : RateLimiter) (msg : TgMessage)
    (tr : Transport) (now : Instant) : HandlerResult :=
  match msg.text with
  | some text =>
    if strStartsWith text "/start" then
      { tbl := tbl, rl := rl, effects := [Effect.sendText msg.chatId WELCOME_TEXT],
        queued := none }
    else if strStartsWith text "/degenme" then
      let key := rateKey msg.chatId (msg.fromUser.getD 0)
      let res := check_rate_limit rl key now
      if res.1 then
        let r := handle tbl res.2 msg tr now
        { tbl := r.1, rl := r.2.1, effects := r.2.2, queued := none }
      else
        { tbl := tbl, rl := res.2,
          effects := [Effect.sendText msg.chatId RATE_LIMIT_TEXT], queued := none }
    else
      { tbl := tbl, rl := rl, effects := [], queued := none }
  | none =>
    if msg.photo.isSome then
      { tbl := tbl, rl := rl, effects := [], queued := some msg }
    else
      { tbl := tbl, rl := rl, effects := [], queued := none }

/-! ## Concrete fixtures used by witnesses and counterexamples -/

/-- A 1×1 three-channel base raster. -/
def baseTiny : Img :=
  { rows := 1
    cols := 1
    channels := 3
    pix := fun _ _ _ => 0 }

/-- A 1-row × 2-column fully-opaque 4-channel overlay (aspect ratio 2). -/
def ovWide : Img :=
  { rows := 1
    cols := 2
    channels := 4
    pix := fun _ _ _ => 255 }

/-- A 2×2 three-channel base raster. -/
def baseSquare : Img :=
  { rows := 2
    cols := 2
    channels := 3
    pix := fun _ _ _ => 10 }

/-- A 2×2 fully-opaque 4-channel overlay (aspect ratio 1). -/
def ovSquare : Img :=
  { rows := 2
    cols := 2
    channels := 4
    pix := fun _ _ _ => 255 }

/-- A 2-row × 3-column 4-channel base raster. -/
def baseWideSmall : Img :=
  { rows := 2
    cols := 3
    channels := 4
    pix := fun _ _ _ => 10 }

/-- A transport whose every oracle succeeds. -/
def trOk : Transport :=
  { token := "TOKEN"
    sendText := fun _ _ => Except.ok 500
    sendPhoto := fun _ _ _ _ => Except.ok 501
    deleteMessage := fun _ _ => Except.ok ()
    getChatMember := fun _ _ => Except.ok { username := some "bob" }
    getFile := fun _ => Except.ok "photos/p.jpg"
    httpGet := fun _ => Except.ok (Except.ok [1, 2, 3])
    imdecode := fun _ => Except.ok baseSquare
    imreadOverlay := fun _ => Except.ok ovSquare
    imencodePng := fun _ => Except.ok [9] }

/-- A transport identical to `trOk` except that every text send fails. -/
def trFailSend : Transport :=
  { trOk with sendText := fun _ _ => Except.error () }

/-- A transport identical to `trOk` except that `get_chat_member` fails. -/
def trNoMember : Transport :=
  { trOk with getChatMember := fun _ _ => Except.error () }

/-- A `/degenme` text message from user 7 (username "alice") in chat 100. -/
def msgDegenme : TgMessage :=
  { chatId := 100
    fromUser := some 7
    fromUsername := some "alice"
    text := some "/degenme"
    photo := none
    replyTo := none }

/-- A photo message from user 7 in chat 5 replying to message 41. -/
def msgPhotoEx : TgMessage :=
  { chatId := 5
    fromUser := some 7
    fromUsername := some "bob"
    text := none
    photo := some ["f1"]
    replyTo := some 41 }

/-! ## Helper lemmas shared by several proofs -/

/-- A photo message that matches no stored prompt leaves the table unchanged
and emits nothing (the shared content behind claims C3 and C4). -/
theorem process_image_no_match (tbl : PendingOverlays) (msg : TgMessage)
    (tr : Transport) (now : Instant) (uid : UserId)
    (hu : msg.fromUser = some uid)
    (h : getEntry tbl (msg.chatId, uid) = none ∨
         ∃ m t0, getEntry tbl (msg.chatId, uid) = some (m, t0) ∧ msg.replyTo ≠ some m) :
    process_image tbl msg tr now = (tbl, []) := by
  cases hr : msg.replyTo with
  | none => simp [process_image, hu, hr]
  | some rid =>
    rcases h with he | ⟨m, t0, he, hne⟩
    · simp [process_image, hu, hr, he]
    · have hmr : ¬ m = rid := fun hc => hne (by rw [hr, hc])
      simp [process_image, hu, hr, he, hmr]

/-! ## Claim C3 -/

/-- Claim C3: for every inbound photo message, if no pending entry exists for
its SessionKey, or its `reply_to` differs from the stored prompt's id, the
processor sends no outbound message and leaves the pending table unchanged
(`processor.rs` lines 85–99 and 233–241). -/
theorem photo_without_match_is_ignored (tbl : PendingOverlays) (msg : TgMessage)
    (tr : Transport) (now : Instant) (uid : UserId)
    (hu : msg.fromUser = some uid)
    (h : getEntry tbl (msg.chatId, uid) = none ∨
         ∃ m t0, getEntry tbl (msg.chatId, uid) = some (m, t0) ∧ msg.replyTo ≠ some m) :
    process_image tbl msg tr now = (tbl, []) :=
  process_image_no_match tbl msg tr now uid hu h

/-- Witness for C3: a stored prompt 42 and a photo replying to 41 are left
untouched. -/
theorem photo_without_match_is_ignored_witness :
    process_image [((5, 7), (42, 0))] msgPhotoEx trOk 10 = ([((5, 7), (42, 0))], []) :=
  photo_without_match_is_ignored [((5, 7), (42, 0))] msgPhotoEx trOk 10 7 rfl
    (Or.inr ⟨42, 0, rfl, by decide⟩)

/-! ## Claim C4 -/

/-- Claim C4: a matching, unexpired photo reply removes the pending entry
before any transport or download I/O (the trace starts with the removal),
and a second delivery of the same reply finds no entry, emits nothing — in
particular it never composes — and leaves the table unchanged
(`processor.rs` lines 97–112). -/
theorem matching_reply_removes_entry_before_io (tbl : PendingOverlays)
    (msg : TgMessage) (tr tr2 : Transport) (now now2 : Instant)
    (uid : UserId) (rid : MessageId) (t0 : Instant)
    (hu : msg.fromUser = some uid)
    (hr : msg.replyTo = some rid)
    (he : getEntry tbl (msg.chatId, uid) = some (rid, t0))
    (hl : now - t0 ≤ OVERLAY_EXPIRATION) :
    (process_image tbl msg tr now).1 = removeEntry tbl (msg.chatId, uid) ∧
    (∃ rest, (process_image tbl msg tr now).2
        = Effect.removeEntry (msg.chatId, uid) :: rest) ∧
    process_image (removeEntry tbl (msg.chatId, uid)) msg tr2 now2
      = (removeEntry tbl (msg.chatId, uid), []) := by
  have hx : ¬ now - t0 > OVERLAY_EXPIRATION := not_lt.mpr hl
  refine ⟨?_, ?_, ?_⟩
  · simp [process_image, hu, hr, he, hx]
  · exact ⟨processMatchedPhoto tr msg, by simp [process_image, hu, hr, he, hx]⟩
  · exact process_image_no_match _ msg tr2 now2 uid hu
      (Or.inl (getEntry_removeEntry_self tbl (msg.chatId, uid)))

/-- Witness for C4 at a concrete matching reply (prompt 41, age 5 s). -/
theorem matching_reply_removes_entry_before_io_witness :
    (process_image [((5, 7), (41, 0))] msgPhotoEx trOk 5).1 = [] ∧
    (∃ rest, (process_image [((5, 7), (41, 0))] msgPhotoEx trOk 5).2
        = Effect.removeEntry (5, 7) :: rest) ∧
    process_image (removeEntry [((5, 7), (41, 0))] (5, 7)) msgPhotoEx trOk 99
      = (removeEntry [((5, 7), (41, 0))] (5, 7), []) := by
  have h := matching_reply_removes_entry_before_io [((5, 7), (41, 0))] msgPhotoEx
    trOk trOk 5 99 7 41 0 rfl rfl rfl (by decide)
  exact ⟨by rw [h.1]; rfl, h.2.1, h.2.2⟩

/-! ## Claim C5 -/

/-- Claim C5: a photo reply matching the stored prompt but older than
`OVERLAY_EXPIRATION` (180 s) triggers no composition: the entry is removed,
and exactly the expiry notice is sent (`processor.rs` lines 90–96). -/
theorem expired_reply_gets_expiry_notice (tbl : PendingOverlays) (msg : TgMessage)
    (tr : Transport) (now : Instant) (uid : UserId) (rid : MessageId) (t0 : Instant)
    (hu : msg.fromUser = some uid)
    (hr : msg.replyTo = some rid)
    (he : getEntry tbl (msg.chatId, uid) = some (rid, t0))
    (hx : now - t0 > OVERLAY_EXPIRATION) :
    process_image tbl msg tr now
      = (removeEntry tbl (msg.chatId, uid),
         [Effect.removeEntry (msg.chatId, uid),
          Effect.sendText msg.chatId EXPIRED_TEXT]) := by
  simp [process_image, hu, hr, he, hx]

/-- Witness for C5: prompt sent at t=0, matching reply at t=200. -/
theorem expired_reply_gets_expiry_notice_witness :
    process_image [((5, 7), (41, 0))] msgPhotoEx trOk 200
      = (removeEntry [((5, 7), (41, 0))] (5, 7),
         [Effect.removeEntry (5, 7), Effect.sendText 5 EXPIRED_TEXT]) :=
  expired_reply_gets_expiry_notice [((5, 7), (41, 0))] msgPhotoEx trOk 200 7 41 0
    rfl rfl rfl (by decide)

/-! ## Claim C9 -/

/-- Claim C9: the `previous_result` parameter of `overlay_image` has no
observable effect — any two values give identical results
(`image_utils.rs` line 15). -/
theorem overlay_image_ignores_previous_result (base ov : Img) (p1 p2 : Option Img) :
    overlay_image base ov p1 = overlay_image base ov p2 := rfl

/-! ## Claim C10 -/

/-- Claim C10: if the prompt send fails during a `/degenme` invocation that
passed the rate limit, the pending table is unchanged — no insertion, and
any prior entry keeps its prompt id and timestamp (`handler.rs` lines
95–113). -/
theorem failed_prompt_send_leaves_table (tbl : PendingOverlays) (rl : RateLimiter)
    (msg : TgMessage) (tr : Transport) (now : Instant)
    (hrl : (check_rate_limit rl (rateKey msg.chatId (msg.fromUser.getD 0)) now).1 = true)
    (hs : tr.sendText msg.chatId (replyTextFor tbl msg) = Except.error ()) :
    (handle tbl rl msg tr now).1 = tbl := by
  simp [handle, hrl, hs]

/-- Witness for C10: an empty limiter admits, the send fails, and a prior
entry for the same user survives untouched. -/
theorem failed_prompt_send_leaves_table_witness :
    (handle [((100, 7), (33, 2))] (RateLimiter.new 5 60) msgDegenme trFailSend 4).1
      = [((100, 7), (33, 2))] :=
  failed_prompt_send_leaves_table [((100, 7), (33, 2))] (RateLimiter.new 5 60)
    msgDegenme trFailSend 4 rfl rfl

/-! ## Claim C1 -/

/-- Feed the same message through `message_handler` once per listed time,
threading the pending table and the rate limiter, and collect each
invocation's effect trace. -/
def runInvocations (tr : Transport) (msg : TgMessage) :
    List Instant → PendingOverlays × RateLimiter → List (List Effect)
  | [], _ => []
  | t :: ts, st =>
    let r := message_handler st.1 st.2 msg tr t
    r.effects :: runInvocations tr msg ts (r.tbl, r.rl)

/-- Claim C1 is contradicted by the composed pipeline: six `/degenme`
invocations from the same SessionKey within 10 s are admitted only twice.
`message_handler` (`main.rs` line 138) consumes one rate token and
`CommandHandler::handle` (`handler.rs` line 75) consumes a second one from
the *same* limiter and key, so with `MAX_REQUESTS = 5` (the "5 requests per
minute" the code itself documents at `main.rs` line 62) the third invocation
is already denied — from inside the handler — and the fourth through sixth
are denied by the dispatcher.  The trace below exhibits two prompts followed
by four rate-limit notices, not the five prompts plus one notice the claim
requires. -/
theorem degenme_six_times_admits_only_two :
    runInvocations trOk msgDegenme [0, 2, 4, 6, 8, 10] ([], RateLimiter.new 5 60)
      = [[Effect.sendText 100 (promptText "@alice")],
         [Effect.sendText 100 ("Previous request cancelled. " ++ promptText "@alice")],
         [Effect.sendText 100 RATE_LIMIT_TEXT],
         [Effect.sendText 100 RATE_LIMIT_TEXT],
         [Effect.sendText 100 RATE_LIMIT_TEXT],
         [Effect.sendText 100 RATE_LIMIT_TEXT]] := by
  rfl

/-! ## Claim C8 -/

/-- The command-name extraction the claim describes — the characters after
`/` up to the first `@` or space — written from the spec's words, for
comparison with what the wired dispatcher actually does. -/
def specParseCommand (text : String) : Option String :=
  if strStartsWith text "/" then
    some (String.mk ((text.data.drop 1).takeWhile (fun ch => decide (ch ≠ '@' ∧ ch ≠ ' '))))
  else none

/-- The message `msgDegenme` with text "/startle". -/
def msgStartle : TgMessage := { msgDegenme with text := some "/startle" }

/-- The message `msgDegenme` with text "/foo". -/
def msgFoo : TgMessage := { msgDegenme with text := some "/foo" }

/-- Claim C8 counterexample: the wired dispatcher tests plain string
prefixes (`main.rs` lines 132 and 134), so "/startle" is answered with the
welcome message even though the claim's extraction yields the unknown
command "startle", for which it requires no outbound message.  (The
token-splitting dispatcher at `commands/mod.rs` lines 148–165 is never
wired into the teloxide dispatcher, and its command registry is, in any
case, never populated.) -/
theorem dispatcher_answers_startle :
    (message_handler [] (RateLimiter.new 5 60) msgStartle trOk 0).effects
        = [Effect.sendText 100 WELCOME_TEXT]
      ∧ specParseCommand "/startle" = some "startle"
      ∧ "startle" ≠ "start" ∧ "startle" ≠ "degenme" := by
  exact ⟨rfl, by decide, by decide, by decide⟩

/-- Claim C8 (amended): the wired dispatcher routes by plain string prefix —
a text starting with "/start" gets the welcome message, and a text starting
with neither "/start" nor "/degenme" produces no outbound message and leaves
the table, the limiter and the queue untouched. -/
theorem dispatcher_routes_by_leading_string (tbl : PendingOverlays) (rl : RateLimiter)
    (msg : TgMessage) (tr : Transport) (now : Instant) (text : String)
    (ht : msg.text = some text) :
    (strStartsWith text "/start" = true →
      message_handler tbl rl msg tr now
        = { tbl := tbl, rl := rl,
            effects := [Effect.sendText msg.chatId WELCOME_TEXT], queued := none }) ∧
    (strStartsWith text "/start" = false → strStartsWith text "/degenme" = false →
      message_handler tbl rl msg tr now
        = { tbl := tbl, rl := rl, effects := [], queued := none }) := by
  constructor
  · intro h1
    simp [message_handler, ht, h1]
  · intro h1 h2
    simp [message_handler, ht, h1, h2]

/-- Witness for the amended C8 at the unknown command "/foo". -/
theorem dispatcher_routes_by_leading_string_witness :
    (strStartsWith "/foo" "/start" = false) ∧ (strStartsWith "/foo" "/degenme" = false) ∧
    message_handler [] (RateLimiter.new 5 60) msgFoo trOk 3
      = { tbl := [], rl := RateLimiter.new 5 60, effects := [], queued := none } :=
  ⟨by decide, by decide,
    (dispatcher_routes_by_leading_string [] (RateLimiter.new 5 60) msgFoo trOk 3 "/foo" rfl).2
      (by decide) (by decide)⟩

/-! ## Claim C2 -/

/-- The per-entry effect sequence the (amended) claim prescribes for the
expired entries, written as an independent specification of the sweep:
member lookup (with the reminder only on success), then deletion of the
stale prompt, entry by entry. -/
def sweepEffects (tr : Transport) : List (SessionKey × (MessageId × Instant)) → List Effect
  | [] => []
  | e :: es =>
    memberNotice tr e.1 ++ [Effect.deleteMessage e.1.1 e.2.1] ++ sweepEffects tr es

theorem sweepKeys_spec (tr : Transport) (L : List (SessionKey × (MessageId × Instant)))
    (t : PendingOverlays) (effs : List Effect)
    (hnd : (L.map (·.1)).Nodup)
    (hget : ∀ e ∈ L, getEntry t e.1 = some e.2) :
    sweepKeys tr (L.map (·.1)) (t, effs)
      = (t.filter (fun e => decide (e.1 ∉ L.map (·.1))), effs ++ sweepEffects tr L) := by
  induction L generalizing t effs with
  | nil =>
    simp [sweepKeys, sweepEffects]
  | cons e es ih =>
    rw [List.map_cons] at hnd ⊢
    obtain ⟨hnot, hnd'⟩ := List.nodup_cons.mp hnd
    have hgete : getEntry t e.1 = some e.2 := hget e (List.mem_cons_self e es)
    have hget' : ∀ e' ∈ es, getEntry (removeEntry t e.1) e'.1 = some e'.2 := by
      intro e' he'
      have hne : e'.1 ≠ e.1 := fun hc => hnot (hc ▸ List.mem_map_of_mem (·.1) he')
      rw [getEntry_removeEntry_ne t e.1 e'.1 hne]
      exact hget e' (List.mem_cons_of_mem e he')
    have hstep : sweepKeys tr (e.1 :: es.map (·.1)) (t, effs)
        = sweepKeys tr (es.map (·.1))
            (removeEntry t e.1,
             effs ++ memberNotice tr e.1 ++ [Effect.deleteMessage e.1.1 e.2.1]) := by
      simp only [sweepKeys, hgete]
    rw [hstep, ih (removeEntry t e.1) _ hnd' hget']
    refine Prod.ext ?_ ?_
    · show (removeEntry t e.1).filter _ = _
      unfold removeEntry
      rw [List.filter_filter]
      refine List.filter_congr ?_
      intro x _
      by_cases h1 : x.1 ∈ es.map (·.1) <;> by_cases h2 : x.1 = e.1 <;>
        simp [h1, h2, List.mem_cons]
    · show (effs ++ memberNotice tr e.1 ++ [Effect.deleteMessage e.1.1 e.2.1])
          ++ sweepEffects tr es = effs ++ sweepEffects tr (e :: es)
      simp [sweepEffects, List.append_assoc]

/-- Claim C2 counterexample: an expired entry whose chat-member lookup fails
is removed and its prompt deleted, but *no* reminder message is sent (and
the lookup failure is not logged) — the claim requires a reminder for each
removed entry.  Input: one entry of age 200 s, transport whose
`get_chat_member` errors. -/
theorem sweeper_sends_no_reminder_on_member_error :
    cleanup_expired_overlays [((1, 2), (10, 0))] trNoMember 200
      = ([], [Effect.getChatMember 1 2, Effect.deleteMessage 1 10]) := by
  rfl

/-- Claim C2 (amended): each sweeper pass removes exactly the entries whose
age exceeds 180 s, and for each removed entry it looks up the chat member,
sends the reminder (username, falling back to "Degen") only when that lookup
succeeds, and always attempts deletion of the stale prompt; per-entry
failures never abort the sweep (`cleanup.rs` lines 20–44). -/
theorem sweeper_removes_exactly_expired (tbl : PendingOverlays) (tr : Transport)
    (now : Instant) (hn : nodupKeys tbl) :
    cleanup_expired_overlays tbl tr now
      = (tbl.filter (fun e => decide (now - e.2.2 ≤ OVERLAY_EXPIRATION)),
         sweepEffects tr
           (tbl.filter (fun e => decide (now - e.2.2 > OVERLAY_EXPIRATION)))) := by
  unfold cleanup_expired_overlays
  have hnd : ((tbl.filter (fun e => decide (now - e.2.2 > OVERLAY_EXPIRATION))).map
      (·.1)).Nodup :=
    hn.sublist ((List.filter_sublist tbl).map (·.1))
  have hget : ∀ e ∈ tbl.filter (fun e => decide (now - e.2.2 > OVERLAY_EXPIRATION)),
      getEntry tbl e.1 = some e.2 := by
    intro e he
    exact getEntry_of_mem_nodup hn (List.mem_of_mem_filter he)
  rw [sweepKeys_spec tr _ tbl [] hnd hget]
  rw [List.nil_append]
  refine Prod.ext ?_ rfl
  show tbl.filter _ = tbl.filter _
  refine List.filter_congr ?_
  intro e he
  rw [decide_eq_decide]
  constructor
  · intro hnotin
    by_contra hgt
    have hP : now - e.2.2 > OVERLAY_EXPIRATION := lt_of_not_ge hgt
    have hmem : e ∈ tbl.filter (fun e => decide (now - e.2.2 > OVERLAY_EXPIRATION)) :=
      List.mem_filter.mpr ⟨he, by simpa using hP⟩
    exact hnotin (List.mem_map_of_mem (·.1) hmem)
  · intro hle hin
    obtain ⟨e', he', hk⟩ := List.mem_map.mp hin
    have he'tbl := List.mem_of_mem_filter he'
    have hP : now - e'.2.2 > OVERLAY_EXPIRATION := by
      simpa using (List.mem_filter.mp he').2
    have heq : e' = e := eq_of_mem_nodupKeys hn he'tbl he hk
    rw [heq] at hP
    exact absurd hle (not_le.mpr hP)

/-- Witness for the amended C2: one expired entry (age 200 s) is swept with
lookup, reminder and deletion; one live entry (age 100 s) stays. -/
theorem sweeper_removes_exactly_expired_witness :
    nodupKeys [((1, 2), (10, 0)), ((1, 3), (11, 100))] ∧
    cleanup_expired_overlays [((1, 2), (10, 0)), ((1, 3), (11, 100))] trOk 200
      = ([((1, 3), (11, 100))],
         [Effect.getChatMember 1 2, Effect.sendText 1 (sweeperExpiryText "bob"),
          Effect.deleteMessage 1 10]) := by
  have hn : nodupKeys [((1, 2), (10, 0)), ((1, 3), (11, 100))] := by
    unfold nodupKeys
    decide
  refine ⟨hn, ?_⟩
  rw [sweeper_removes_exactly_expired _ trOk 200 hn]
  rfl

/-! ## Claims C6 and C7: the compositor's geometry -/

/-- Characterization of the successful `overlay_image` run: with a 3- or
4-channel base, a non-degenerate 4-channel overlay and a positive resize
height, the result is the blended raster built from the source's geometry
(`resizedHeight`, `yOffset`, bottom cropping via `min`). -/
theorem overlay_image_ok_eq (base ov : Img) (prev : Option Img)
    (hc : base.channels = 3 ∨ base.channels = 4)
    (hor : 0 < ov.rows) (hoc : 0 < ov.cols) (hov4 : ov.channels = 4)
    (hw : 0 < base.cols) (hh : 0 < resizedHeight base ov) :
    overlay_image base ov prev
      = Except.ok
          { rows := base.rows
            cols := base.cols
            channels := 4
            pix := fun y x c =>
              blendPixel (if base.channels = 3 then promoteBGRA base else base)
                (resizeLinear ov base.cols (resizedHeight base ov))
                (yOffset base ov) (min (resizedHeight base ov) base.rows) y x c } := by
  have h2 : ¬(ov.rows = 0 ∨ ov.cols = 0 ∨ base.cols = 0 ∨ resizedHeight base ov = 0) := by
    omega
  have h3 : ¬(ov.channels ≠ 4 ∧ 0 < min (resizedHeight base ov) base.rows) :=
    fun h => h.1 hov4
  simp only [overlay_image, if_pos hc, if_neg h2, if_neg h3]

/-- Claim C6 counterexample: for the 1×1 three-channel base `baseTiny` and
the 2×1 four-channel overlay `ovWide`, the resize target height truncates to
`⌊1 / 2⌋ = 0` (exact in `f32`), `cv::resize` rejects the empty destination
size, and `overlay_image` returns an error instead of the 4-channel raster
the claim promises for every base of size at least 1×1. -/
theorem compose_fails_on_tiny_base :
    overlay_image baseTiny ovWide none = Except.error CvError.badSize := by
  have hrh : resizedHeight baseTiny ovWide = 0 := by
    unfold resizedHeight overlayAspect baseTiny ovWide
    norm_num
  have hch : baseTiny.channels = 3 := rfl
  simp [overlay_image, hrh, hch]

/-- Claim C6 (amended): whenever the truncated resize height is at least 1,
`overlay_image` on a 3- or 4-channel base of size ≥ 1×1 returns a 4-channel
raster of exactly the base's dimensions, a 3-channel base being promoted
with a fully-opaque alpha plane (the whole output alpha plane is 255);
a base with neither 3 nor 4 channels yields the UNSUPPORTED_FORMAT error
unconditionally (`image_utils.rs` lines 15–66). -/
theorem compose_preserves_dims (base ov : Img) (prev : Option Img)
    (hbr : 0 < base.rows) (hbc : 0 < base.cols)
    (hor : 0 < ov.rows) (hoc : 0 < ov.cols) (hov4 : ov.channels = 4)
    (hh : 0 < resizedHeight base ov) :
    ((base.channels = 3 ∨ base.channels = 4) →
      ∃ out, overlay_image base ov prev = Except.ok out
        ∧ out.rows = base.rows ∧ out.cols = base.cols ∧ out.channels = 4
        ∧ (base.channels = 3 → ∀ y x, out.pix y x 3 = 255)) ∧
    (¬(base.channels = 3 ∨ base.channels = 4) →
      overlay_image base ov prev = Except.error CvError.unsupportedFormat) := by
  constructor
  · intro hc
    refine ⟨_, overlay_image_ok_eq base ov prev hc hor hoc hov4 hbc hh, rfl, rfl, rfl, ?_⟩
    intro h3 y x
    show blendPixel _ _ _ _ y x 3 = 255
    unfold blendPixel
    split
    · rw [if_pos rfl]
    · simp [h3, promoteBGRA]
  · intro hc
    unfold overlay_image
    rw [if_neg hc]

/-- Witness for the amended C6 on the 2×2 3-channel base and square overlay. -/
theorem compose_preserves_dims_witness :
    (0 < resizedHeight baseSquare ovSquare) ∧
    (∃ out, overlay_image baseSquare ovSquare none = Except.ok out
      ∧ out.rows = baseSquare.rows ∧ out.cols = baseSquare.cols ∧ out.channels = 4
      ∧ (baseSquare.channels = 3 → ∀ y x, out.pix y x 3 = 255)) := by
  have hrh : resizedHeight baseSquare ovSquare = 2 := by
    unfold resizedHeight overlayAspect baseSquare ovSquare
    norm_num
    decide
  have hpos : 0 < resizedHeight baseSquare ovSquare := by
    rw [hrh]
    decide
  have h := compose_preserves_dims baseSquare ovSquare none (by decide) (by decide)
    (by decide) (by decide) (by decide) hpos
  exact ⟨hpos, h.1 (Or.inl (by decide))⟩

/-- The claim's resize-height formula — `round(base.width / aspect)` — with
round-half-up, written from the spec's words for comparison with the
source's truncating `resizedHeight`. -/
def specRoundHeight (base ov : Img) : Nat :=
  Int.toNat ⌊(base.cols : ℚ) / overlayAspect ov + 1/2⌋

/-- Claim C7 counterexample: a base of width 3 against the 2×1 overlay
(aspect 2) gives `3 / 2 = 1.5`, which is exact in `f32`: the code's `as i32`
truncation makes the resize height 1, while the claim's `round` requires 2. -/
theorem resize_height_truncates_not_rounds :
    resizedHeight baseWideSmall ovWide = 1 ∧ specRoundHeight baseWideSmall ovWide = 2 := by
  constructor
  · unfold resizedHeight overlayAspect baseWideSmall ovWide
    norm_num
  · unfold specRoundHeight overlayAspect baseWideSmall ovWide
    norm_num
    decide

/-- The amended claim's composite, written from the (corrected) spec text:
resize the overlay to `(base.width, trunc(base.width / aspect))` — i.e. to
height `⌊base.width · overlay.height / overlay.width⌋` — place it with
vertical offset `max 0 (base.height − resized height)`, and crop the resized
overlay's bottom rows to the base height. -/
def specComposite (base ov : Img) : Img :=
  let h := Int.toNat ⌊((base.cols : ℚ) * ov.rows) / ov.cols⌋
  let rz := resizeLinear ov base.cols h
  let off := Int.toNat (max 0 ((base.rows : Int) - (h : Int)))
  let bgra := if base.channels = 3 then promoteBGRA base else base
  { rows := base.rows
    cols := base.cols
    channels := 4
    pix := fun y x c => blendPixel bgra rz off (min h base.rows) y x c }

theorem resizedHeight_eq_mul_div (base ov : Img) :
    resizedHeight base ov = Int.toNat ⌊((base.cols : ℚ) * ov.rows) / ov.cols⌋ := by
  unfold resizedHeight overlayAspect
  rw [div_div_eq_mul_div]

theorem yOffset_eq_max (base ov : Img) :
    yOffset base ov
      = Int.toNat (max 0 ((base.rows : Int) - (resizedHeight base ov : Int))) := by
  unfold yOffset
  by_cases hgt : resizedHeight base ov > base.rows
  · rw [if_pos hgt]
    omega
  · rw [if_neg hgt]
    omega

/-- Claim C7 (amended): `overlay_image` resizes the overlay to width
`base.width` and height `trunc(base.width / aspect)` (truncation toward
zero, not rounding), places it with vertical offset
`max 0 (base.height − resized height)`, and — when the resized overlay is
taller than the base — keeps its top at `y = 0`, cropping the bottom rows,
exactly as `specComposite` states (`image_utils.rs` lines 29–49). -/
theorem compose_geometry (base ov : Img) (prev : Option Img)
    (hc : base.channels = 3 ∨ base.channels = 4)
    (hor : 0 < ov.rows) (hoc : 0 < ov.cols) (hov4 : ov.channels = 4)
    (hw : 0 < base.cols) (hh : 0 < resizedHeight base ov) :
    overlay_image base ov prev = Except.ok (specComposite base ov) := by
  rw [overlay_image_ok_eq base ov prev hc hor hoc hov4 hw hh]
  simp only [specComposite]
  rw [← resizedHeight_eq_mul_div, ← yOffset_eq_max]

/-- Witness for the amended C7 on the 2×2 3-channel base and square overlay. -/
theorem compose_geometry_witness :
    (0 < resizedHeight baseSquare ovSquare) ∧
    overlay_image baseSquare ovSquare none = Except.ok (specComposite baseSquare ovSquare) := by
  have hrh : resizedHeight baseSquare ovSquare = 2 := by
    unfold resizedHeight overlayAspect baseSquare ovSquare
    norm_num
    decide
  have hpos : 0 < resizedHeight baseSquare ovSquare := by
    rw [hrh]
    decide
  exact ⟨hpos,
    compose_geometry baseSquare ovSquare none (Or.inl (by decide)) (by decide)
      (by decide) (by decide) (by decide) hpos⟩

end DegenBot
